import Mathlib

/-!
Verification of the bulk SMS notification pipeline of naija-result-connect.

The definitions below are a shallow embedding of the pipeline's source:
* the Express backend (`src/unnamed/part_001`): `formatPhone`, `sendSMS`
  (gateway client with 429 retry), `processSMSBatch`;
* the frontend service (`src/src/services/smsService.ts`): the `SMSService`
  class, embedded in the `SMSService` namespace: `formatPhoneNumber`,
  `sendSMS`, `createSMSRecord`, `updateSMSRecord`, `sendSMSToStudent`,
  `sendBulkSMS`, `retrySMS`;
* the `increment_attempts` SQL function
  (`src/supabase/migrations/20250720152633_shrill_desert.sql`), which gives
  the semantics of the `attempts` column update.

External effects are made explicit: the HTTP gateway is an oracle
(`Nat → HttpOutcome` per call for the backend, a `GatewayBehavior` value per
send for the service), database success or failure is a `Bool` oracle, and
observable side effects (gateway calls, record writes, progress callbacks,
pacing delays) are collected into event traces.  Wall-clock timestamps are
represented by a logical clock (`DB.clock`); their exact values are not load
bearing for any property proved here.
-/

/-- A JavaScript string, as its list of characters. -/
abbrev JStr := List Char

/-- `l.take p.length == p`: list version of JavaScript `String.startsWith`. -/
def startsWithL (l p : JStr) : Bool := l.take p.length == p

/-- The validation test of `formatPhone` (`src/unnamed/part_001`, line 60):
`cleaned.length === 13 && ['7','8','9'].includes(cleaned.charAt(3))`. -/
def nigeriaCheck (l : JStr) : Bool :=
  l.length == 13 && (l[3]? == some '7' || l[3]? == some '8' || l[3]? == some '9')

/-- Core of the backend normalizer `formatPhone`
(`src/unnamed/part_001`, lines 52-64), on the already digit-filtered input:
`0`-prefix replaced by `234`; bare 10-digit numbers get `234` prepended;
the result is returned only if it passes `nigeriaCheck`. -/
def formatPhoneCore (digits : JStr) : Option JStr :=
  let c1 :=
    if startsWithL digits ['0'] then ['2', '3', '4'] ++ digits.drop 1
    else if !startsWithL digits ['2', '3', '4'] && digits.length == 10 then
      ['2', '3', '4'] ++ digits
    else digits
  if nigeriaCheck c1 then some c1 else none

/-- Backend normalizer `formatPhone` (`src/unnamed/part_001`, lines 52-64).
`if (!phone) return null` is the empty-string guard; `replace(/\D/g, '')`
is the digit filter. -/
def formatPhone (phone : String) : Option String :=
  if phone.isEmpty then none
  else (formatPhoneCore (phone.toList.filter Char.isDigit)).map fun l => String.mk l

/-- One HTTP response of the external gateway, as seen by the backend
`sendSMS` through axios: a 2xx response with its data, a non-2xx response
(axios throws, `error.response.status` / `error.response.data` /
`error.message` are available), or a network failure or timeout (axios
throws with no `error.response`). -/
inductive HttpOutcome where
  | ok (data : String)
  | httpErr (status : Nat) (payload : Option String) (msg : String)
  | netErr (msg : String)
deriving DecidableEq, Repr

/-- The value returned by the backend `sendSMS`:
`{success: true, data}` or `{success: false, error}`. -/
inductive GatewayResult where
  | ok (data : String)
  | err (error : String)
deriving DecidableEq, Repr

/-- Backend gateway client `sendSMS` (`src/unnamed/part_001`, lines 67-102).
`gw` is the gateway oracle giving the response of each HTTP call,
`attempt` the index of the next call, `retries` the remaining retry budget
(the source default is 2).  On a 429 response with retries left the call
recurses after a 2000 ms delay (`error.response?.status === 429 &&
retries > 0`); any other failure returns
`{success: false, error: error.response?.data || error.message}`.
Returns the result together with the number of HTTP calls made and the
total backoff delay in milliseconds. -/
def sendSMS (gw : Nat → HttpOutcome) : Nat → Nat → GatewayResult × Nat × Nat
  | attempt, 0 =>
    match gw attempt with
    | .ok d => (.ok d, 1, 0)
    | .httpErr _ payload msg => (.err (payload.getD msg), 1, 0)
    | .netErr msg => (.err msg, 1, 0)
  | attempt, r + 1 =>
    match gw attempt with
    | .ok d => (.ok d, 1, 0)
    | .httpErr status payload msg =>
      if status = 429 then
        let out := sendSMS gw (attempt + 1) r
        (out.1, out.2.1 + 1, out.2.2 + 2000)
      else (.err (payload.getD msg), 1, 0)
    | .netErr msg => (.err msg, 1, 0)

example : formatPhone "08031234567" = some "2348031234567" := by decide
example : formatPhone "+2348031234567" = some "2348031234567" := by decide
example : formatPhone "123" = none := by decide
example : formatPhone "9998765432111" = some "9998765432111" := by decide

namespace SMSService

/-- The `status` column of an `sms_records` row
(`src/supabase/migrations/20250720152633_shrill_desert.sql`). -/
inductive SMSStatus where
  | pending
  | sent
  | failed
  | retry
deriving DecidableEq, Repr

/-- One `sms_records` row (the `SMSRecord` interface of
`src/src/services/smsService.ts` and the table of the migration).
Timestamps are values of the logical clock. -/
structure SMSRec where
  id : Nat
  student_id : String
  phone_number : String
  message : String
  status : SMSStatus
  attempts : Nat
  last_attempt : Nat
  error_message : Option String
  sid : Option String
  created_at : Nat
  updated_at : Nat
deriving DecidableEq, Repr

/-- The Supabase `sms_records` table: its rows, the next generated id, and a
logical clock standing for `new Date()` / `now()`. -/
structure DB where
  recs : List SMSRec
  nextId : Nat
  clock : Nat
deriving DecidableEq, Repr

/-- Row lookup by id (`.eq('id', recordId).single()`). -/
def findRec (db : DB) (rid : Nat) : Option SMSRec :=
  db.recs.find? fun r => r.id == rid

/-- Core of `SMSService.formatPhoneNumber`
(`src/src/services/smsService.ts`, lines 47-68), on the digit-filtered
input.  The source returns early from the `0`-prefix branch, the
`'+234'`-prefix branch (unreachable: `cleaned` holds only digits) and the
not-`234`-prefix branch without running the final length-and-prefix
validation; only inputs already starting with `234` are validated. -/
def formatPhoneNumberCore (cleaned : JStr) : Option JStr :=
  if startsWithL cleaned ['0'] then some (['2', '3', '4'] ++ cleaned.drop 1)
  else if startsWithL cleaned ['+', '2', '3', '4'] then some (cleaned.drop 1)
  else if !startsWithL cleaned ['2', '3', '4'] then some (['2', '3', '4'] ++ cleaned)
  else if nigeriaCheck cleaned then some cleaned
  else none

/-- `SMSService.formatPhoneNumber` (`src/src/services/smsService.ts`,
lines 47-68). -/
def formatPhoneNumber (phone : String) : Option String :=
  if phone.isEmpty then none
  else (formatPhoneNumberCore (phone.toList.filter Char.isDigit)).map fun l => String.mk l

/-- The `SMSResult` interface of `src/src/services/smsService.ts`. -/
structure SMSResult where
  success : Bool
  sid : Option String := none
  status : Option String := none
  error : Option String := none
deriving DecidableEq, Repr

/-- Behaviour of one `fetch` to the gateway inside `SMSService.sendSMS`:
a 2xx JSON response (carrying `result.data?.id || result.id` and
`result.data?.status`), a non-2xx JSON response (carrying `result.message`
and the HTTP status), or a thrown network or configuration error with its
message. -/
inductive GatewayBehavior where
  | ok (sid : Option String) (status : Option String)
  | httpError (message : Option String) (status : Nat)
  | netError (msg : String)
deriving DecidableEq, Repr

/-- `SMSService.sendSMS` (`src/src/services/smsService.ts`, lines 71-112).
A non-ok response throws `Error(result.message || <HTTP status>)`, and the
catch block turns every thrown error into `{success: false, error}`. -/
def sendSMS (g : GatewayBehavior) : SMSResult :=
  match g with
  | .ok sid status => { success := true, sid := sid, status := some (status.getD "sent") }
  | .httpError message status =>
    { success := false, error := some (message.getD ("HTTP " ++ toString status)) }
  | .netError msg => { success := false, error := some msg }

/-- `SMSService.createSMSRecord` (`src/src/services/smsService.ts`,
lines 115-149).  `dbOk` is the persistence oracle: on a Supabase error the
function logs and returns `null` (here `none`) and nothing is inserted.
A fresh row starts with `attempts = 1`. -/
def createSMSRecord (db : DB) (studentId phone msg : String) (status : SMSStatus)
    (sid errMsg : Option String) (dbOk : Bool) : Option Nat × DB :=
  if dbOk then
    let rid := db.nextId
    (some rid,
      { recs := db.recs ++ [{
          id := rid, student_id := studentId, phone_number := phone,
          message := msg, status := status, attempts := 1,
          last_attempt := db.clock, error_message := errMsg, sid := sid,
          created_at := db.clock, updated_at := db.clock }],
        nextId := db.nextId + 1, clock := db.clock })
  else (none, db)

/-- `SMSService.updateSMSRecord` (`src/src/services/smsService.ts`,
lines 152-181).  On success it overwrites `status`, sets
`last_attempt`/`updated_at` to now, and sets `attempts` through the
`increment_attempts` SQL function of the migration, which performs
`UPDATE sms_records SET attempts = attempts + 1`.  An `undefined` `sid` or
`error_message` is dropped from the JSON update payload, leaving the column
unchanged.  On a Supabase error (`dbOk = false`) it logs and returns
`false` with the table unchanged. -/
def updateSMSRecord (db : DB) (recordId : Nat) (status : SMSStatus)
    (sid errMsg : Option String) (dbOk : Bool) : Bool × DB :=
  if dbOk then
    (true,
      { db with recs := db.recs.map fun r =>
          if r.id == recordId then
            { r with status := status,
                     last_attempt := db.clock,
                     attempts := r.attempts + 1,
                     sid := sid.orElse fun _ => r.sid,
                     error_message := errMsg.orElse fun _ => r.error_message,
                     updated_at := db.clock }
          else r })
  else (false, db)

end SMSService

example :
    SMSService.formatPhoneNumber "123" = some "234123" := by decide
example :
    SMSService.formatPhoneNumber "08031234567" = some "2348031234567" := by decide
example :
    SMSService.formatPhoneNumber "2340" = none := by decide

namespace SMSService

/-- Observable side effects of the service pipeline: a progress-callback
invocation, a gateway send, a Delivery Record insert or update, and the
inter-message pacing delay.  Each event is tagged with the index of the
recipient (loop iteration) it belongs to. -/
inductive BulkEv where
  | progressEv (idx current total : Nat) (student : String)
  | gatewaySend (idx : Nat) (phone : String)
  | recCreate (idx : Nat) (studentId phone : String)
  | recUpdate (idx : Nat) (recordId : Nat)
  | pause (idx ms : Nat)
deriving DecidableEq, Repr

/-- The recipient index an event is tagged with. -/
def BulkEv.tag : BulkEv → Nat
  | .progressEv i _ _ _ => i
  | .gatewaySend i _ => i
  | .recCreate i _ _ => i
  | .recUpdate i _ => i
  | .pause i _ => i

/-- Whether an event is a progress-callback invocation. -/
def BulkEv.isProgress : BulkEv → Bool
  | .progressEv _ _ _ _ => true
  | _ => false

/-- The value returned by `SMSService.sendSMSToStudent`:
`{success: boolean, recordId?, error?}`. -/
structure StudentSendResult where
  success : Bool
  recordId : Option Nat := none
  error : Option String := none
deriving DecidableEq, Repr

/-- `SMSService.sendSMSToStudent` (`src/src/services/smsService.ts`,
lines 184-224).  `tag` marks emitted events with the caller's loop index;
`gw` is the gateway behaviour of this send; `createOk`/`updateOk` are the
persistence oracles for the record insert and the record update.  Returns
the result, the new table state and the emitted events. -/
def sendSMSToStudent (tag : Nat) (studentId phone msg : String)
    (recordId : Option Nat) (gw : GatewayBehavior) (createOk updateOk : Bool)
    (db : DB) : StudentSendResult × DB × List BulkEv :=
  match formatPhoneNumber phone with
  | none =>
    match recordId with
    | some rid =>
      let (_, db1) := updateSMSRecord db rid .failed none
        (some "Invalid phone number format") updateOk
      ({ success := false, error := some "Invalid phone number format" },
        db1, [.recUpdate tag rid])
    | none =>
      ({ success := false, error := some "Invalid phone number format" }, db, [])
  | some formattedPhone =>
    let (currentRecordId, db1, evs1) :=
      match recordId with
      | some rid => (some rid, db, ([] : List BulkEv))
      | none =>
        let (ridOpt, db') :=
          createSMSRecord db studentId formattedPhone msg .pending none none createOk
        (ridOpt, db', [.recCreate tag studentId formattedPhone])
    let smsResult := sendSMS gw
    let (db2, evs3) :=
      match currentRecordId with
      | some rid =>
        let (_, db') := updateSMSRecord db1 rid
          (if smsResult.success then .sent else .failed) smsResult.sid
          smsResult.error updateOk
        (db', [BulkEv.recUpdate tag rid])
      | none => (db1, ([] : List BulkEv))
    ({ success := smsResult.success, recordId := currentRecordId,
       error := smsResult.error },
      db2, evs1 ++ [BulkEv.gatewaySend tag formattedPhone] ++ evs3)

/-- The student rows fed to `SMSService.sendBulkSMS`. -/
structure Student where
  id : String
  first_name : String
  last_name : String
  phone : String
deriving DecidableEq, Repr

/-- One element of `BulkSMSResult.results`
(`src/src/services/smsService.ts`, lines 28-35).  On success the source
stores `result.recordId` in the `sid` field. -/
structure BulkEntry where
  student_id : String
  student_name : String
  phone : String
  success : Bool
  error : Option String := none
  sid : Option Nat := none
deriving DecidableEq, Repr

/-- The `BulkSMSResult` interface of `src/src/services/smsService.ts`. -/
structure BulkSMSResult where
  total : Nat
  sent : Nat
  failed : Nat
  results : List BulkEntry
deriving DecidableEq, Repr

/-- Behaviour of one loop iteration of `sendBulkSMS`: either the
`sendSMSToStudent` call runs with the given gateway and persistence
oracles, or it throws (an abstraction of any rejected awaited promise in
the `try` block), which the loop's `catch` turns into a failure entry. -/
inductive StepOracle where
  | normal (gw : GatewayBehavior) (createOk updateOk : Bool)
  | throws (msg : String)

/-- Loop of `SMSService.sendBulkSMS` (`src/src/services/smsService.ts`,
lines 241-296).  `i` is the current index, `total` the input length,
`hasProgress` whether an `onProgress` callback was supplied.  For each
student the source first invokes the progress callback with
`current = i + 1`, then runs the try block: `sendSMSToStudent`, one result
entry, and a 1000 ms pause when the student is not the last; a thrown
exception is caught and recorded as a failure entry for that student only.
Returns (sent, failed, entries, table, events). -/
def sendBulkSMSGo (msg : String) (orc : Nat → StepOracle) (total : Nat)
    (hasProgress : Bool) :
    List Student → Nat → DB → Nat × Nat × List BulkEntry × DB × List BulkEv
  | [], _, db => (0, 0, [], db, [])
  | s :: rest, i, db =>
    let studentName := s.first_name ++ " " ++ s.last_name
    let pevs : List BulkEv :=
      if hasProgress then [.progressEv i (i + 1) total studentName] else []
    match orc i with
    | .throws m =>
      let (se, fa, es, db1, tr) := sendBulkSMSGo msg orc total hasProgress rest (i + 1) db
      (se, fa + 1,
        { student_id := s.id, student_name := studentName, phone := s.phone,
          success := false, error := some m } :: es,
        db1, pevs ++ tr)
    | .normal gw createOk updateOk =>
      let (res, db1, evs) :=
        sendSMSToStudent i s.id s.phone msg none gw createOk updateOk db
      let entry : BulkEntry :=
        if res.success then
          { student_id := s.id, student_name := studentName, phone := s.phone,
            success := true, sid := res.recordId }
        else
          { student_id := s.id, student_name := studentName, phone := s.phone,
            success := false, error := res.error }
      let pauseEvs : List BulkEv := if rest.isEmpty then [] else [.pause i 1000]
      let (se, fa, es, db2, tr) := sendBulkSMSGo msg orc total hasProgress rest (i + 1) db1
      (if res.success then se + 1 else se,
       if res.success then fa else fa + 1,
       entry :: es, db2, pevs ++ evs ++ pauseEvs ++ tr)

/-- `SMSService.sendBulkSMS` (`src/src/services/smsService.ts`,
lines 227-304). -/
def sendBulkSMS (students : List Student) (msg : String)
    (orc : Nat → StepOracle) (hasProgress : Bool) (db : DB) :
    BulkSMSResult × DB × List BulkEv :=
  let (se, fa, es, db', tr) :=
    sendBulkSMSGo msg orc students.length hasProgress students 0 db
  ({ total := students.length, sent := se, failed := fa, results := es }, db', tr)

/-- `SMSService.MAX_RETRIES` (`src/src/services/smsService.ts`, line 44). -/
def MAX_RETRIES : Nat := 3

/-- `SMSService.retrySMS` (`src/src/services/smsService.ts`,
lines 353-392).  Loads the record; a missing record fails with
`'SMS record not found'`; a record with `attempts >= MAX_RETRIES` fails
with `'Maximum retry attempts reached'` before any other effect.
Otherwise the record is set to `retry` and resubmitted through
`sendSMSToStudent` with the stored phone and message. -/
def retrySMS (db : DB) (recordId : Nat) (gw : GatewayBehavior)
    (retryUpdOk createOk updateOk : Bool) : StudentSendResult × DB × List BulkEv :=
  match findRec db recordId with
  | none => ({ success := false, error := some "SMS record not found" }, db, [])
  | some record =>
    if record.attempts ≥ MAX_RETRIES then
      ({ success := false, error := some "Maximum retry attempts reached" }, db, [])
    else
      let (_, db1) := updateSMSRecord db recordId .retry none none retryUpdOk
      let (res, db2, evs) :=
        sendSMSToStudent 0 record.student_id record.phone_number record.message
          (some recordId) gw createOk updateOk db1
      (res, db2, BulkEv.recUpdate 0 recordId :: evs)

end SMSService

/-- JavaScript `String.replace` with a string pattern: replaces the first
occurrence of `pat` (special replacement patterns are not used by the
source's templates). -/
def replaceFirst : JStr → JStr → JStr → JStr
  | [], _, _ => []
  | c :: cs, pat, rep =>
    if pat.isPrefixOf (c :: cs) then rep ++ (c :: cs).drop pat.length
    else c :: replaceFirst cs pat rep

/-- A student row as consumed by the backend `processSMSBatch`: name,
raw phone, `results?.[0]?.total_score`, `calculatedCGPA` and `cgpa`
(the latter three already rendered to strings, `none` for a missing or
falsy value). -/
structure PStudent where
  first_name : String
  last_name : String
  phone : String
  score : Option String := none
  calculatedCGPA : Option String := none
  cgpa : Option String := none
deriving DecidableEq, Repr

/-- Message rendering of `processSMSBatch` (`src/unnamed/part_001`,
lines 129-134): substitute `\x7bfirstName\x7d`, `\x7blastName\x7d`,
`\x7bscore\x7d` and `\x7bcgpa\x7d` (missing values become `'N/A'`), then
`substring(0, 160)`. -/
def renderTemplate (tmpl : String) (s : PStudent) : String :=
  String.mk
    ((replaceFirst
      (replaceFirst
        (replaceFirst
          (replaceFirst tmpl.toList "{firstName}".toList s.first_name.toList)
          "{lastName}".toList s.last_name.toList)
        "{score}".toList (s.score.getD "N/A").toList)
      "{cgpa}".toList ((s.calculatedCGPA.orElse fun _ => s.cgpa).getD "N/A").toList).take 160)

/-- A successful entry of `processSMSBatch`'s `results.sent`
(`src/unnamed/part_001`, lines 140-145; the wall-clock `timestamp` field is
not modelled). -/
structure SentEntry where
  student : String
  phone : String
  message : String
deriving DecidableEq, Repr

/-- A failure entry of `processSMSBatch`'s `results.failed`
(`src/unnamed/part_001`, lines 121-125, 148-152, 163-167). -/
structure FailEntry where
  student : String
  phone : String
  error : String
deriving DecidableEq, Repr

/-- The aggregate returned by `processSMSBatch`. -/
structure PBatchResult where
  sent : List SentEntry
  failed : List FailEntry
  total : Nat
deriving DecidableEq, Repr

/-- Behaviour of one loop iteration of the backend `processSMSBatch`:
either it runs with the given per-HTTP-call gateway oracle, or the
iteration throws (an abstraction of any rejected awaited promise inside
the `try`), which the `catch` records as a failure with the raw phone. -/
inductive BStep where
  | normal (gw : Nat → HttpOutcome)
  | throws (msg : String)

/-- Loop of the backend `processSMSBatch` (`src/unnamed/part_001`,
lines 111-169).  `i` is the loop index; the 500 ms inter-message pause has
no further observable effect and is not recorded.  Returns
(sent entries, failed entries, number of `sendSMS` gateway-client
invocations). -/
def processSMSBatchGo (tmpl : String) (orc : Nat → BStep) :
    List PStudent → Nat → List SentEntry × List FailEntry × Nat
  | [], _ => ([], [], 0)
  | s :: rest, i =>
    let studentName := s.first_name ++ " " ++ s.last_name
    let (se, fa, gc) := processSMSBatchGo tmpl orc rest (i + 1)
    match orc i with
    | .throws m =>
      (se, { student := studentName, phone := s.phone, error := m } :: fa, gc)
    | .normal gw =>
      match formatPhone s.phone with
      | none =>
        (se,
          { student := studentName, phone := s.phone,
            error := "Invalid phone number format" } :: fa, gc)
      | some phone =>
        let message := renderTemplate tmpl s
        match sendSMS gw 0 2 with
        | (.ok _, _, _) =>
          ({ student := studentName, phone := phone, message := message } :: se,
            fa, gc + 1)
        | (.err e, _, _) =>
          (se, { student := studentName, phone := phone, error := e } :: fa, gc + 1)

/-- Backend `processSMSBatch` (`src/unnamed/part_001`, lines 105-192),
together with the number of gateway-client invocations it makes. -/
def processSMSBatch (students : List PStudent) (tmpl : String)
    (orc : Nat → BStep) : PBatchResult × Nat :=
  let (se, fa, gc) := processSMSBatchGo tmpl orc students 0
  ({ sent := se, failed := fa, total := students.length }, gc)

/-- Characterization of a backend `sendSMS` run: at least one and at most
`retries + 1` HTTP calls are made, and the returned value is determined by
the gateway's response to the last call: its data on 2xx, its error payload
(or the exception message) otherwise. -/
theorem sendSMS_spec_aux (gw : Nat → HttpOutcome) :
    ∀ r a,
      1 ≤ (sendSMS gw a r).2.1 ∧ (sendSMS gw a r).2.1 ≤ r + 1 ∧
      ((∃ d, (sendSMS gw a r).1 = .ok d ∧ gw (a + ((sendSMS gw a r).2.1 - 1)) = .ok d) ∨
       (∃ s p m, (sendSMS gw a r).1 = .err (p.getD m) ∧
         gw (a + ((sendSMS gw a r).2.1 - 1)) = .httpErr s p m) ∨
       (∃ m, (sendSMS gw a r).1 = .err m ∧
         gw (a + ((sendSMS gw a r).2.1 - 1)) = .netErr m)) := by
  intro r
  induction r with
  | zero =>
    intro a
    unfold sendSMS
    cases h : gw a with
    | ok d => exact ⟨le_refl 1, le_refl 1, Or.inl ⟨d, rfl, h⟩⟩
    | httpErr s p m => exact ⟨le_refl 1, le_refl 1, Or.inr (Or.inl ⟨s, p, m, rfl, h⟩)⟩
    | netErr m => exact ⟨le_refl 1, le_refl 1, Or.inr (Or.inr ⟨m, rfl, h⟩)⟩
  | succ n ih =>
    intro a
    unfold sendSMS
    cases h : gw a with
    | ok d => exact ⟨le_refl 1, by show (1:Nat) ≤ n + 1 + 1; omega, Or.inl ⟨d, rfl, h⟩⟩
    | httpErr s p m =>
      by_cases hs : s = 429
      · simp only [hs, if_pos rfl]
        obtain ⟨h1, h2, h3⟩ := ih (a + 1)
        have hidx : (a + 1) + ((sendSMS gw (a + 1) n).2.1 - 1)
            = a + (sendSMS gw (a + 1) n).2.1 := by omega
        refine ⟨?_, ?_, ?_⟩
        · show 1 ≤ (sendSMS gw (a + 1) n).2.1 + 1
          omega
        · show (sendSMS gw (a + 1) n).2.1 + 1 ≤ n + 1 + 1
          omega
        · rcases h3 with ⟨d, hd, hg⟩ | ⟨s', p', m', hd, hg⟩ | ⟨m', hd, hg⟩
          · exact Or.inl ⟨d, hd, hidx ▸ hg⟩
          · exact Or.inr (Or.inl ⟨s', p', m', hd, hidx ▸ hg⟩)
          · exact Or.inr (Or.inr ⟨m', hd, hidx ▸ hg⟩)
      · simp only [if_neg hs]
        exact ⟨le_refl 1, by show (1:Nat) ≤ n + 1 + 1; omega,
          Or.inr (Or.inl ⟨s, p, m, rfl, h⟩)⟩
    | netErr m =>
      exact ⟨le_refl 1, by show (1:Nat) ≤ n + 1 + 1; omega, Or.inr (Or.inr ⟨m, rfl, h⟩)⟩

/-- C1: the spec demands that the phone normalizer return a non-null value
only for a 13-digit result whose 4th digit is 7, 8 or 9, and in particular
`normalize("123") = null`.  The backend `formatPhone` honours this
(`formatPhone "123" = none`), but `SMSService.formatPhoneNumber` returns
from its prefix branches before the validation runs: on `"123"` it returns
`"234123"`, a 6-digit value, instead of `null`.  This evaluates the
divergent implementation at the failing input. -/
theorem formatPhoneNumber_skips_validation_on_123 :
    SMSService.formatPhoneNumber "123" = some "234123" ∧ formatPhone "123" = none := by
  decide

/-- C3: a backend gateway send that receives HTTP 429 retries after a fixed
2000 ms backoff at most 2 additional times: 429 then 2xx succeeds after
exactly one retry delay and two HTTP calls; three 429s in a row fail after
three HTTP calls and two delays; no run with the default budget of 2
retries ever makes more than 3 HTTP calls. -/
theorem sendSMS_rate_limit_retry_bounds :
    (∀ (gw : Nat → HttpOutcome) (d : String) (p : Option String) (m : String),
      gw 0 = .httpErr 429 p m → gw 1 = .ok d →
      sendSMS gw 0 2 = (.ok d, 2, 2000)) ∧
    (∀ (gw : Nat → HttpOutcome) (p0 p1 p2 : Option String) (m0 m1 m2 : String),
      gw 0 = .httpErr 429 p0 m0 → gw 1 = .httpErr 429 p1 m1 →
      gw 2 = .httpErr 429 p2 m2 →
      sendSMS gw 0 2 = (.err (p2.getD m2), 3, 4000)) ∧
    (∀ (gw : Nat → HttpOutcome) (a : Nat), (sendSMS gw a 2).2.1 ≤ 3) := by
  refine ⟨?_, ?_, ?_⟩
  · intro gw d p m h0 h1
    simp [sendSMS, h0, h1]
  · intro gw p0 p1 p2 m0 m1 m2 h0 h1 h2
    simp [sendSMS, h0, h1, h2]
  · intro gw a
    exact (sendSMS_spec_aux gw 2 a).2.1

/-- Witness for C3: a gateway answering 429 then 2xx yields success after
one 2000 ms delay and two calls; a gateway answering 429 three times yields
failure carrying the 429 payload after three calls. -/
theorem sendSMS_rate_limit_retry_bounds_witness :
    sendSMS (fun n => match n with
        | 0 => HttpOutcome.httpErr 429 none "rate limited"
        | _ => HttpOutcome.ok "msg-1") 0 2 = (.ok "msg-1", 2, 2000) ∧
    sendSMS (fun _ => HttpOutcome.httpErr 429 (some "Too Many Requests") "429") 0 2
      = (.err "Too Many Requests", 3, 4000) :=
  ⟨sendSMS_rate_limit_retry_bounds.1 _ "msg-1" none "rate limited" rfl rfl,
   sendSMS_rate_limit_retry_bounds.2.1 _ (some "Too Many Requests")
     (some "Too Many Requests") (some "Too Many Requests") "429" "429" "429" rfl rfl rfl⟩

/-- C7: neither gateway client throws to its caller.  The backend `sendSMS`
always returns a result value: the data of the final 2xx response on
success, and on failure an error equal to the gateway's error payload when
a response was received (`error.response?.data || error.message`) or the
exception message on a network failure.  `SMSService.sendSMS` maps a 2xx
response to `{success: true}` with the gateway message identifier, and
every non-2xx response or thrown error to `{success: false, error}`. -/
theorem gateway_send_returns_result_never_throws :
    (∀ (gw : Nat → HttpOutcome) (a r : Nat),
      1 ≤ (sendSMS gw a r).2.1 ∧ (sendSMS gw a r).2.1 ≤ r + 1 ∧
      ((∃ d, (sendSMS gw a r).1 = .ok d ∧ gw (a + ((sendSMS gw a r).2.1 - 1)) = .ok d) ∨
       (∃ s p m, (sendSMS gw a r).1 = .err (p.getD m) ∧
         gw (a + ((sendSMS gw a r).2.1 - 1)) = .httpErr s p m) ∨
       (∃ m, (sendSMS gw a r).1 = .err m ∧
         gw (a + ((sendSMS gw a r).2.1 - 1)) = .netErr m))) ∧
    (∀ sid status, SMSService.sendSMS (.ok sid status)
        = { success := true, sid := sid, status := some (status.getD "sent") }) ∧
    (∀ message status, SMSService.sendSMS (.httpError message status)
        = { success := false, error := some (message.getD ("HTTP " ++ toString status)) }) ∧
    (∀ msg, SMSService.sendSMS (.netError msg) = { success := false, error := some msg }) :=
  ⟨fun gw a r => sendSMS_spec_aux gw r a,
   fun _ _ => rfl, fun _ _ => rfl, fun _ => rfl⟩

/-- Row lookup commutes with an id-preserving row transformation. -/
theorem find?_map_id_preserving (rid : Nat) (f : SMSService.SMSRec → SMSService.SMSRec)
    (hf : ∀ r, (f r).id = r.id) :
    ∀ l : List SMSService.SMSRec,
      (l.map f).find? (fun r => r.id == rid) = (l.find? (fun r => r.id == rid)).map f := by
  intro l
  induction l with
  | nil => rfl
  | cons a t ih =>
    by_cases h : a.id = rid
    · rw [List.map_cons, List.find?_cons_of_pos _ (by simp [hf a, h]),
        List.find?_cons_of_pos _ (by simp [h])]
      rfl
    · rw [List.map_cons, List.find?_cons_of_neg _ (by simp [hf a, h]),
        List.find?_cons_of_neg _ (by simp [h]), ih]

/-- The row transformation a successful `updateSMSRecord` applies to the
matching row, as seen through `findRec`. -/
theorem findRec_updateSMSRecord (db : SMSService.DB) (rid : Nat)
    (st : SMSService.SMSStatus) (sid errMsg : Option String) :
    SMSService.findRec (SMSService.updateSMSRecord db rid st sid errMsg true).2 rid
      = (SMSService.findRec db rid).map fun r =>
          { r with status := st, last_attempt := db.clock,
                   attempts := r.attempts + 1,
                   sid := sid.orElse fun _ => r.sid,
                   error_message := errMsg.orElse fun _ => r.error_message,
                   updated_at := db.clock } := by
  unfold SMSService.updateSMSRecord SMSService.findRec
  simp only [eq_self_iff_true, if_true]
  have := find?_map_id_preserving rid
    (fun r => if r.id == rid then
        { r with status := st, last_attempt := db.clock,
                 attempts := r.attempts + 1,
                 sid := sid.orElse fun _ => r.sid,
                 error_message := errMsg.orElse fun _ => r.error_message,
                 updated_at := db.clock }
      else r)
    (by intro r; by_cases h : r.id == rid <;> simp [h])
    db.recs
  rw [this]
  cases h : db.recs.find? (fun r => r.id == rid) with
  | none => rfl
  | some r =>
    have hid : (r.id == rid) = true := by simpa using List.find?_some h
    simp only [Option.map_some', if_pos hid]

/-- C2: a successful call to `updateSMSRecord` increments the stored
`attempts` counter by exactly one (through the `increment_attempts` SQL
function), so two calls with identical outcome data increment it twice:
the operation is deliberately not idempotent and `attempts` strictly
increases on each call. -/
theorem updateSMSRecord_increments_attempts :
    ∀ (db : SMSService.DB) (rid : Nat) (st : SMSService.SMSStatus)
      (sid errMsg : Option String) (r : SMSService.SMSRec),
      SMSService.findRec db rid = some r →
      (SMSService.updateSMSRecord db rid st sid errMsg true).1 = true ∧
      ((SMSService.findRec (SMSService.updateSMSRecord db rid st sid errMsg true).2 rid).map
        SMSService.SMSRec.attempts) = some (r.attempts + 1) ∧
      ((SMSService.findRec (SMSService.updateSMSRecord
            (SMSService.updateSMSRecord db rid st sid errMsg true).2
            rid st sid errMsg true).2 rid).map SMSService.SMSRec.attempts)
        = some (r.attempts + 2) := by
  intro db rid st sid errMsg r h
  refine ⟨by simp [SMSService.updateSMSRecord], ?_, ?_⟩
  · rw [findRec_updateSMSRecord, h]
    rfl
  · rw [findRec_updateSMSRecord, findRec_updateSMSRecord, h]
    rfl

/-- Witness for C2: on a one-row table whose record has `attempts = 1`,
one update yields `attempts = 2` and a second identical update yields
`attempts = 3`. -/
theorem updateSMSRecord_increments_attempts_witness :
    (SMSService.updateSMSRecord
      ⟨[⟨7, "stu-1", "2348031234567", "hello", .failed, 1, 0, some "boom", none, 0, 0⟩], 8, 5⟩
      7 .retry none none true).1 = true ∧
    ((SMSService.findRec (SMSService.updateSMSRecord
        ⟨[⟨7, "stu-1", "2348031234567", "hello", .failed, 1, 0, some "boom", none, 0, 0⟩], 8, 5⟩
        7 .retry none none true).2 7).map SMSService.SMSRec.attempts) = some 2 ∧
    ((SMSService.findRec (SMSService.updateSMSRecord
        (SMSService.updateSMSRecord
          ⟨[⟨7, "stu-1", "2348031234567", "hello", .failed, 1, 0, some "boom", none, 0, 0⟩], 8, 5⟩
          7 .retry none none true).2
        7 .retry none none true).2 7).map SMSService.SMSRec.attempts) = some 3 :=
  updateSMSRecord_increments_attempts
    ⟨[⟨7, "stu-1", "2348031234567", "hello", .failed, 1, 0, some "boom", none, 0, 0⟩], 8, 5⟩
    7 .retry none none
    ⟨7, "stu-1", "2348031234567", "hello", .failed, 1, 0, some "boom", none, 0, 0⟩
    (by decide)

/-- C6: `retrySMS` on a record whose `attempts` counter is at least
`MAX_RETRIES = 3` returns failure `'Maximum retry attempts reached'`,
leaves the table untouched and emits no event at all: in particular it
makes zero gateway calls, whatever the gateway and persistence oracles
would answer. -/
theorem retrySMS_ceiling_blocks_gateway :
    ∀ (db : SMSService.DB) (rid : Nat) (gw : SMSService.GatewayBehavior)
      (retryUpdOk createOk updateOk : Bool) (r : SMSService.SMSRec),
      SMSService.findRec db rid = some r → 3 ≤ r.attempts →
      SMSService.retrySMS db rid gw retryUpdOk createOk updateOk
        = ({ success := false, error := some "Maximum retry attempts reached" }, db, []) := by
  intro db rid gw b1 b2 b3 r h hge
  unfold SMSService.retrySMS
  rw [h]
  simp only [SMSService.MAX_RETRIES, ge_iff_le, if_pos hge]

/-- Witness for C6: a record with `attempts = 3` blocks the retry without
touching the table or the gateway. -/
theorem retrySMS_ceiling_blocks_gateway_witness :
    SMSService.retrySMS
      ⟨[⟨1, "stu-1", "2348031234567", "hello", .failed, 3, 0, some "boom", none, 0, 0⟩], 2, 9⟩
      1 (.ok (some "SID") none) true true true
      = ({ success := false, error := some "Maximum retry attempts reached" },
         ⟨[⟨1, "stu-1", "2348031234567", "hello", .failed, 3, 0, some "boom", none, 0, 0⟩], 2, 9⟩,
         []) :=
  retrySMS_ceiling_blocks_gateway
    ⟨[⟨1, "stu-1", "2348031234567", "hello", .failed, 3, 0, some "boom", none, 0, 0⟩], 2, 9⟩
    1 (.ok (some "SID") none) true true true
    ⟨1, "stu-1", "2348031234567", "hello", .failed, 3, 0, some "boom", none, 0, 0⟩
    (by decide) (by decide)

/-- C8: for a recipient whose phone normalizes, the success and error that
`sendSMSToStudent` reports are exactly those of the gateway send, for every
combination of persistence outcomes: a failed record insert (which returns
`null` and inserts nothing) or a failed record update (which returns
`false` and changes nothing) never alters the reported send result. -/
theorem persistence_failure_does_not_change_outcome :
    (∀ (tag : Nat) (studentId phone msg : String) (gw : SMSService.GatewayBehavior)
       (createOk updateOk : Bool) (db : SMSService.DB) (p : String),
      SMSService.formatPhoneNumber phone = some p →
      (SMSService.sendSMSToStudent tag studentId phone msg none gw createOk updateOk db).1.success
        = (SMSService.sendSMS gw).success ∧
      (SMSService.sendSMSToStudent tag studentId phone msg none gw createOk updateOk db).1.error
        = (SMSService.sendSMS gw).error) ∧
    (∀ (db : SMSService.DB) (studentId phone msg : String) (status : SMSService.SMSStatus)
       (sid errMsg : Option String),
      (SMSService.createSMSRecord db studentId phone msg status sid errMsg false).1 = none ∧
      (SMSService.createSMSRecord db studentId phone msg status sid errMsg false).2 = db) ∧
    (∀ (db : SMSService.DB) (rid : Nat) (status : SMSService.SMSStatus)
       (sid errMsg : Option String),
      (SMSService.updateSMSRecord db rid status sid errMsg false).1 = false ∧
      (SMSService.updateSMSRecord db rid status sid errMsg false).2 = db) := by
  refine ⟨?_, ?_, ?_⟩
  · intro tag studentId phone msg gw createOk updateOk db p hp
    unfold SMSService.sendSMSToStudent
    rw [hp]
    cases createOk <;>
      simp [SMSService.createSMSRecord, SMSService.updateSMSRecord]
  · intro db studentId phone msg status sid errMsg
    exact ⟨rfl, rfl⟩
  · intro db rid status sid errMsg
    exact ⟨rfl, rfl⟩

/-- Accounting invariant of the backend batch loop: every student yields
exactly one entry, in `sent` or in `failed`. -/
theorem processSMSBatchGo_accounting (tmpl : String) (orc : Nat → BStep) :
    ∀ (l : List PStudent) (i : Nat),
      (processSMSBatchGo tmpl orc l i).1.length
        + (processSMSBatchGo tmpl orc l i).2.1.length = l.length := by
  intro l
  induction l with
  | nil => intro i; rfl
  | cons s rest ih =>
    intro i
    have h := ih (i + 1)
    unfold processSMSBatchGo
    rcases hrec : processSMSBatchGo tmpl orc rest (i + 1) with ⟨se, fa, gc⟩
    rw [hrec] at h
    dsimp only at h ⊢
    cases orc i with
    | throws m =>
      dsimp only
      simp only [List.length_cons]
      omega
    | normal gw =>
      dsimp only
      cases formatPhone s.phone with
      | none =>
        dsimp only
        simp only [List.length_cons]
        omega
      | some phone =>
        dsimp only
        rcases hss : sendSMS gw 0 2 with ⟨res, n, del⟩
        cases res with
        | ok d =>
          dsimp only
          simp only [List.length_cons]
          omega
        | err e =>
          dsimp only
          simp only [List.length_cons]
          omega

/-- Accounting invariant of the service batch loop: the counters sum to
the number of students and the entry list has one entry per student, in
input order, whatever each iteration's gateway, persistence or thrown
exception behaviour. -/
theorem sendBulkSMSGo_accounting (msg : String) (orc : Nat → SMSService.StepOracle)
    (total : Nat) (hp : Bool) :
    ∀ (l : List SMSService.Student) (i : Nat) (db : SMSService.DB),
      (SMSService.sendBulkSMSGo msg orc total hp l i db).1
          + (SMSService.sendBulkSMSGo msg orc total hp l i db).2.1 = l.length ∧
      ((SMSService.sendBulkSMSGo msg orc total hp l i db).2.2.1.map
          fun e => e.student_id) = l.map fun s => s.id := by
  intro l
  induction l with
  | nil => intro i db; exact ⟨rfl, rfl⟩
  | cons s rest ih =>
    intro i db
    unfold SMSService.sendBulkSMSGo
    cases orc i with
    | throws m =>
      have h := ih (i + 1) db
      rcases hrec : SMSService.sendBulkSMSGo msg orc total hp rest (i + 1) db
        with ⟨se, fa, es, db2, tr⟩
      rw [hrec] at h
      dsimp only at h ⊢
      obtain ⟨ha, hb⟩ := h
      constructor
      · simp only [List.length_cons]
        omega
      · simp only [List.map_cons]
        rw [hb]
    | normal gw createOk updateOk =>
      dsimp only
      rcases hst : SMSService.sendSMSToStudent i s.id s.phone msg none gw createOk updateOk db
        with ⟨res, db1, evs⟩
      have h := ih (i + 1) db1
      rcases hrec : SMSService.sendBulkSMSGo msg orc total hp rest (i + 1) db1
        with ⟨se, fa, es, db2, tr⟩
      rw [hrec] at h
      dsimp only at h ⊢
      obtain ⟨ha, hb⟩ := h
      cases hsucc : res.success <;>
        · simp only [hsucc, if_true, if_false, Bool.false_eq_true, List.length_cons,
            List.map_cons]
          constructor
          · omega
          · rw [hb]

/-- C4: for both batch dispatchers, every recipient yields exactly one
per-recipient outcome entry and the summary satisfies
`total = input length` and `sent + failed = total`; this holds for every
per-recipient behaviour, including iterations that throw, so no single
recipient's failure aborts processing of the rest. -/
theorem batch_dispatch_accounting :
    (∀ (students : List PStudent) (tmpl : String) (orc : Nat → BStep),
      (processSMSBatch students tmpl orc).1.sent.length
          + (processSMSBatch students tmpl orc).1.failed.length
        = (processSMSBatch students tmpl orc).1.total ∧
      (processSMSBatch students tmpl orc).1.total = students.length) ∧
    (∀ (students : List SMSService.Student) (msg : String)
       (orc : Nat → SMSService.StepOracle) (hp : Bool) (db : SMSService.DB),
      (SMSService.sendBulkSMS students msg orc hp db).1.total = students.length ∧
      (SMSService.sendBulkSMS students msg orc hp db).1.sent
          + (SMSService.sendBulkSMS students msg orc hp db).1.failed
        = (SMSService.sendBulkSMS students msg orc hp db).1.total ∧
      ((SMSService.sendBulkSMS students msg orc hp db).1.results.map
          fun e => e.student_id) = students.map fun s => s.id) := by
  constructor
  · intro students tmpl orc
    exact ⟨processSMSBatchGo_accounting tmpl orc students 0, rfl⟩
  · intro students msg orc hp db
    obtain ⟨ha, hb⟩ := sendBulkSMSGo_accounting msg orc students.length hp students 0 db
    exact ⟨rfl, ha, hb⟩

/-- Count invariant of the backend batch loop: invalid-phone students all
land in `failed`, and only students whose phone normalizes (and whose
iteration does not throw) trigger a gateway-client invocation. -/
theorem processSMSBatchGo_invalid_counts (tmpl : String) (orc : Nat → BStep) :
    ∀ (l : List PStudent) (i : Nat),
      (l.countP fun s => (formatPhone s.phone).isNone)
          ≤ (processSMSBatchGo tmpl orc l i).2.1.length ∧
      (processSMSBatchGo tmpl orc l i).2.2
          + (l.countP fun s => (formatPhone s.phone).isNone) ≤ l.length := by
  intro l
  induction l with
  | nil => intro i; exact ⟨Nat.le_refl 0, Nat.le_refl 0⟩
  | cons s rest ih =>
    intro i
    have h := ih (i + 1)
    unfold processSMSBatchGo
    rcases hrec : processSMSBatchGo tmpl orc rest (i + 1) with ⟨se, fa, gc⟩
    rw [hrec] at h
    dsimp only at h ⊢
    obtain ⟨h1, h2⟩ := h
    simp only [List.countP_cons, List.length_cons]
    cases orc i with
    | throws m =>
      dsimp only
      by_cases hfp : (formatPhone s.phone).isNone = true
      · rw [if_pos hfp]
        constructor <;> (try simp only [List.length_cons]) <;> omega
      · rw [if_neg hfp]
        constructor <;> (try simp only [List.length_cons]) <;> omega
    | normal gw =>
      dsimp only
      cases hfp : formatPhone s.phone with
      | none =>
        dsimp only
        rw [if_pos (show (none : Option String).isNone = true from rfl)]
        constructor <;> (try simp only [List.length_cons]) <;> omega
      | some phone =>
        dsimp only
        rw [if_neg (show ¬(some phone).isNone = true by simp)]
        rcases hss : sendSMS gw 0 2 with ⟨res, n, del⟩
        cases res with
        | ok d =>
          dsimp only
          constructor <;> (try simp only [List.length_cons]) <;> omega
        | err e =>
          dsimp only
          constructor <;> (try simp only [List.length_cons]) <;> omega

/-- An invalid-phone student in a non-throwing iteration contributes the
failure entry with error `'Invalid phone number format'` and raw phone. -/
theorem processSMSBatchGo_invalid_entry (tmpl : String) (orc : Nat → BStep) :
    ∀ (l : List PStudent) (i j : Nat) (s : PStudent) (gw : Nat → HttpOutcome),
      l[j]? = some s → orc (i + j) = .normal gw → formatPhone s.phone = none →
      ({ student := s.first_name ++ " " ++ s.last_name, phone := s.phone,
         error := "Invalid phone number format" } : FailEntry)
        ∈ (processSMSBatchGo tmpl orc l i).2.1 := by
  intro l
  induction l with
  | nil => intro i j s gw hj; simp at hj
  | cons a rest ih =>
    intro i j s gw hj ho hfp
    unfold processSMSBatchGo
    rcases hrec : processSMSBatchGo tmpl orc rest (i + 1) with ⟨se, fa, gc⟩
    dsimp only
    cases j with
    | zero =>
      have ha : a = s := by simpa using hj
      subst ha
      have ho' : orc i = .normal gw := ho
      rw [ho']
      dsimp only
      rw [hfp]
      dsimp only
      exact List.mem_cons_self _ _
    | succ j' =>
      have ho' : orc ((i + 1) + j') = .normal gw := by
        rw [show (i + 1) + j' = i + (j' + 1) by omega]
        exact ho
      have hmem := ih (i + 1) j' s gw (by simpa using hj) ho' hfp
      rw [hrec] at hmem
      dsimp only at hmem
      cases orc i with
      | throws m => exact List.mem_cons_of_mem _ hmem
      | normal gw' =>
        dsimp only
        cases formatPhone a.phone with
        | none => exact List.mem_cons_of_mem _ hmem
        | some phone =>
          dsimp only
          rcases sendSMS gw' 0 2 with ⟨res, n, del⟩
          cases res with
          | ok d => exact hmem
          | err e => exact List.mem_cons_of_mem _ hmem

/-- An invalid phone makes `sendSMSToStudent` (called without an existing
record id, as the bulk loop does) return the failure immediately: no
gateway call, no record insert, the table untouched, no event emitted. -/
theorem sendSMSToStudent_invalid_phone (tag : Nat) (studentId phone msg : String)
    (gw : SMSService.GatewayBehavior) (createOk updateOk : Bool)
    (db : SMSService.DB) (h : SMSService.formatPhoneNumber phone = none) :
    SMSService.sendSMSToStudent tag studentId phone msg none gw createOk updateOk db
      = ({ success := false, error := some "Invalid phone number format" }, db, []) := by
  unfold SMSService.sendSMSToStudent
  rw [h]

/-- C5 (amended): an invalid-phone recipient is recorded as a per-recipient
failure with reason `'Invalid phone number format'` (capital I, as the
source spells it), no gateway call and no Delivery Record are made for it,
and the batch continues: with `M` invalid phones among `N` recipients,
`failed >= M` and at most `N - M` gateway-client invocations occur. -/
theorem invalid_phone_skips_gateway_and_record :
    (∀ (students : List PStudent) (tmpl : String) (orc : Nat → BStep),
      (students.countP fun s => (formatPhone s.phone).isNone)
          ≤ (processSMSBatch students tmpl orc).1.failed.length ∧
      (processSMSBatch students tmpl orc).2
          + (students.countP fun s => (formatPhone s.phone).isNone)
        ≤ students.length) ∧
    (∀ (students : List PStudent) (tmpl : String) (orc : Nat → BStep) (j : Nat)
       (s : PStudent) (gw : Nat → HttpOutcome),
      students[j]? = some s → orc j = .normal gw → formatPhone s.phone = none →
      ({ student := s.first_name ++ " " ++ s.last_name, phone := s.phone,
         error := "Invalid phone number format" } : FailEntry)
        ∈ (processSMSBatch students tmpl orc).1.failed) ∧
    (∀ (tag : Nat) (studentId phone msg : String) (gw : SMSService.GatewayBehavior)
       (createOk updateOk : Bool) (db : SMSService.DB),
      SMSService.formatPhoneNumber phone = none →
      SMSService.sendSMSToStudent tag studentId phone msg none gw createOk updateOk db
        = ({ success := false, error := some "Invalid phone number format" }, db, [])) := by
  refine ⟨?_, ?_, ?_⟩
  · intro students tmpl orc
    exact processSMSBatchGo_invalid_counts tmpl orc students 0
  · intro students tmpl orc j s gw hj ho hfp
    exact processSMSBatchGo_invalid_entry tmpl orc students 0 j s gw hj
      (by rw [Nat.zero_add]; exact ho) hfp
  · intro tag studentId phone msg gw createOk updateOk db h
    exact sendSMSToStudent_invalid_phone tag studentId phone msg gw createOk updateOk db h

/-- Witness for C5: a one-student batch with phone `"123"` records the
capital-I failure entry, and a service send with unparseable phone
`"2340"` returns the failure with no effect and no event. -/
theorem invalid_phone_skips_gateway_and_record_witness :
    ({ student := "Ada Obi", phone := "123",
       error := "Invalid phone number format" } : FailEntry)
      ∈ (processSMSBatch [⟨"Ada", "Obi", "123", none, none, none⟩] "Hi {firstName}"
          (fun _ => .normal fun _ => .ok "id")).1.failed ∧
    SMSService.sendSMSToStudent 0 "stu-1" "2340" "hello" none (.ok none none) true true
        ⟨[], 1, 0⟩
      = ({ success := false, error := some "Invalid phone number format" }, ⟨[], 1, 0⟩, []) :=
  ⟨invalid_phone_skips_gateway_and_record.2.1
      [⟨"Ada", "Obi", "123", none, none, none⟩] "Hi {firstName}"
      (fun _ => .normal fun _ => .ok "id") 0 ⟨"Ada", "Obi", "123", none, none, none⟩
      (fun _ => .ok "id") rfl rfl (by decide),
   invalid_phone_skips_gateway_and_record.2.2 0 "stu-1" "2340" "hello" (.ok none none)
      true true ⟨[], 1, 0⟩ (by decide)⟩

/-- C5 counterexample: the failure reason the code records is
`'Invalid phone number format'` with a capital I, which is not the string
`"invalid phone number format"` stated by the claim. -/
theorem invalid_phone_reason_capitalization_cex :
    (processSMSBatch [⟨"Ada", "Obi", "123", none, none, none⟩] "Hi {firstName}"
        (fun _ => .normal fun _ => .ok "id")).1.failed
      = [{ student := "Ada Obi", phone := "123",
           error := "Invalid phone number format" }] ∧
    ("Invalid phone number format" : String) ≠ "invalid phone number format" := by
  constructor
  · decide
  · decide

/-- Every event emitted by `sendSMSToStudent` carries its caller's tag and
none of them is a progress event. -/
theorem sendSMSToStudent_events (tag : Nat) (studentId phone msg : String)
    (recordId : Option Nat) (gw : SMSService.GatewayBehavior) (createOk updateOk : Bool)
    (db : SMSService.DB) :
    ∀ e ∈ (SMSService.sendSMSToStudent tag studentId phone msg recordId gw
        createOk updateOk db).2.2,
      e.tag = tag ∧ e.isProgress = false := by
  intro e he
  unfold SMSService.sendSMSToStudent at he
  cases hfp : SMSService.formatPhoneNumber phone with
  | none =>
    rw [hfp] at he
    cases recordId with
    | some rid =>
      dsimp only at he
      simp only [List.mem_singleton] at he
      subst he
      exact ⟨rfl, rfl⟩
    | none =>
      dsimp only at he
      simp at he
  | some fp =>
    rw [hfp] at he
    cases recordId with
    | some rid =>
      dsimp only at he
      simp at he
      rcases he with rfl | rfl <;> exact ⟨rfl, rfl⟩
    | none =>
      cases createOk with
      | true =>
        simp [SMSService.createSMSRecord] at he
        rcases he with rfl | rfl | rfl <;> exact ⟨rfl, rfl⟩
      | false =>
        simp [SMSService.createSMSRecord] at he
        rcases he with rfl | rfl <;> exact ⟨rfl, rfl⟩

/-- Every event emitted by the bulk loop started at index `i` carries a tag
of at least `i`. -/
theorem sendBulkSMSGo_event_tags (msg : String) (orc : Nat → SMSService.StepOracle)
    (total : Nat) (hp : Bool) :
    ∀ (l : List SMSService.Student) (i : Nat) (db : SMSService.DB),
      ∀ e ∈ (SMSService.sendBulkSMSGo msg orc total hp l i db).2.2.2.2, i ≤ e.tag := by
  intro l
  induction l with
  | nil => intro i db e he; simp [SMSService.sendBulkSMSGo] at he
  | cons a rest ih =>
    intro i db e he
    unfold SMSService.sendBulkSMSGo at he
    cases ho : orc i with
    | throws m =>
      rw [ho] at he
      rcases hrec : SMSService.sendBulkSMSGo msg orc total hp rest (i + 1) db
        with ⟨se, fa, es, db2, tr⟩
      rw [hrec] at he
      dsimp only at he
      rw [List.mem_append] at he
      rcases he with hpe | htr
      · cases hp with
        | true =>
          simp at hpe
          subst hpe
          exact Nat.le_refl i
        | false => simp at hpe
      · have hm : e ∈ (SMSService.sendBulkSMSGo msg orc total hp rest (i + 1) db).2.2.2.2 := by
          rw [hrec]; exact htr
        have := ih (i + 1) db e hm
        omega
    | normal gw createOk updateOk =>
      rw [ho] at he
      dsimp only at he
      rcases hst : SMSService.sendSMSToStudent i a.id a.phone msg none gw createOk updateOk db
        with ⟨res, db1, evs⟩
      rw [hst] at he
      rcases hrec : SMSService.sendBulkSMSGo msg orc total hp rest (i + 1) db1
        with ⟨se, fa, es, db2, tr⟩
      rw [hrec] at he
      dsimp only at he
      simp only [List.append_assoc, List.mem_append] at he
      rcases he with hpe | hev | hpa | htr
      · cases hp with
        | true =>
          simp at hpe
          subst hpe
          exact Nat.le_refl i
        | false => simp at hpe
      · have hm : e ∈ (SMSService.sendSMSToStudent i a.id a.phone msg none gw
            createOk updateOk db).2.2 := by
          rw [hst]; exact hev
        have := sendSMSToStudent_events i a.id a.phone msg none gw createOk updateOk db e hm
        omega
      · by_cases hre : rest.isEmpty = true
        · rw [if_pos hre] at hpa
          simp at hpa
        · rw [if_neg hre] at hpa
          simp at hpa
          subst hpa
          exact Nat.le_refl i
      · have hm : e ∈ (SMSService.sendBulkSMSGo msg orc total hp rest (i + 1) db1).2.2.2.2 := by
          rw [hrec]; exact htr
        have := ih (i + 1) db1 e hm
        omega

/-- Among the events of the recipient at position `j` (started at index
`i0`), the progress invocation comes first — before any gateway call or
record write of that recipient — and is the only progress event, carrying
`current = position + 1` and the given `total`. -/
theorem sendBulkSMSGo_progress_block (msg : String) (orc : Nat → SMSService.StepOracle)
    (total : Nat) :
    ∀ (l : List SMSService.Student) (i0 : Nat) (db : SMSService.DB) (j : Nat)
      (s : SMSService.Student),
      l[j]? = some s →
      (((SMSService.sendBulkSMSGo msg orc total true l i0 db).2.2.2.2.filter
          fun e => e.tag == i0 + j).head?
        = some (.progressEv (i0 + j) (i0 + j + 1) total
            (s.first_name ++ " " ++ s.last_name)) ∧
       ((SMSService.sendBulkSMSGo msg orc total true l i0 db).2.2.2.2.filter
          fun e => e.tag == i0 + j).countP SMSService.BulkEv.isProgress = 1) := by
  intro l
  induction l with
  | nil => intro i0 db j s hj; simp at hj
  | cons a rest ih =>
    intro i0 db j s hj
    unfold SMSService.sendBulkSMSGo
    cases j with
    | zero =>
      have ha : a = s := by simpa using hj
      subst ha
      cases ho : orc i0 with
      | throws m =>
        rcases hrec : SMSService.sendBulkSMSGo msg orc total true rest (i0 + 1) db
          with ⟨se, fa, es, db2, tr⟩
        dsimp only
        have hptrue : ((SMSService.BulkEv.progressEv i0 (i0 + 1) total
            (a.first_name ++ " " ++ a.last_name)).tag == i0 + 0) = true := by
          simp [SMSService.BulkEv.tag]
        have htr0 : tr.filter (fun e => e.tag == i0 + 0) = [] := by
          rw [List.filter_eq_nil_iff]
          intro e he
          have hm : e ∈ (SMSService.sendBulkSMSGo msg orc total true rest
              (i0 + 1) db).2.2.2.2 := by rw [hrec]; exact he
          have := sendBulkSMSGo_event_tags msg orc total true rest (i0 + 1) db e hm
          simp only [beq_iff_eq]
          omega
        simp only [eq_self_iff_true, if_true, List.singleton_append, List.filter_cons,
          hptrue, htr0]
        exact ⟨rfl, rfl⟩
      | normal gw createOk updateOk =>
        dsimp only
        rcases hst : SMSService.sendSMSToStudent i0 a.id a.phone msg none gw
            createOk updateOk db with ⟨res, db1, evs⟩
        try rw [hst]
        rcases hrec : SMSService.sendBulkSMSGo msg orc total true rest (i0 + 1) db1
          with ⟨se, fa, es, db2, tr⟩
        dsimp only
        have hptrue : ((SMSService.BulkEv.progressEv i0 (i0 + 1) total
            (a.first_name ++ " " ++ a.last_name)).tag == i0 + 0) = true := by
          simp [SMSService.BulkEv.tag]
        have hevs : ∀ e ∈ evs, e.tag = i0 ∧ e.isProgress = false := by
          intro e he
          have hm : e ∈ (SMSService.sendSMSToStudent i0 a.id a.phone msg none gw
              createOk updateOk db).2.2 := by rw [hst]; exact he
          exact sendSMSToStudent_events i0 a.id a.phone msg none gw createOk updateOk db e hm
        have htr0 : tr.filter (fun e => e.tag == i0 + 0) = [] := by
          rw [List.filter_eq_nil_iff]
          intro e he
          have hm : e ∈ (SMSService.sendBulkSMSGo msg orc total true rest
              (i0 + 1) db1).2.2.2.2 := by rw [hrec]; exact he
          have := sendBulkSMSGo_event_tags msg orc total true rest (i0 + 1) db1 e hm
          simp only [beq_iff_eq]
          omega
        simp only [eq_self_iff_true, if_true, List.singleton_append, List.filter_cons,
          hptrue, List.filter_append, htr0, List.append_nil]
        constructor
        · rfl
        · simp only [List.countP_cons, List.countP_append]
          have h1 : (evs.filter (fun e => e.tag == i0 + 0)).countP
              SMSService.BulkEv.isProgress = 0 := by
            rw [List.countP_eq_zero]
            intro e he
            have := (hevs e (List.mem_of_mem_filter he)).2
            simp [this]
          have h2 : (((if rest.isEmpty = true then [] else
                [SMSService.BulkEv.pause i0 1000]) :
                List SMSService.BulkEv).filter
              (fun e => e.tag == i0 + 0)).countP SMSService.BulkEv.isProgress = 0 := by
            by_cases hre : rest.isEmpty = true
            · rw [if_pos hre]; rfl
            · rw [if_neg hre]
              rw [List.countP_eq_zero]
              intro e he
              have := List.mem_of_mem_filter he
              simp only [List.mem_singleton] at this
              subst this
              simp [SMSService.BulkEv.isProgress]
          rw [h1, h2]
          simp [SMSService.BulkEv.isProgress]
    | succ j' =>
      have hj' : rest[j']? = some s := by simpa using hj
      cases ho : orc i0 with
      | throws m =>
        rcases hrec : SMSService.sendBulkSMSGo msg orc total true rest (i0 + 1) db
          with ⟨se, fa, es, db2, tr⟩
        dsimp only
        have hpfalse : ((SMSService.BulkEv.progressEv i0 (i0 + 1) total
            (a.first_name ++ " " ++ a.last_name)).tag == i0 + (j' + 1)) = false := by
          simp only [SMSService.BulkEv.tag, beq_eq_false_iff_ne, ne_eq]
          omega
        simp only [eq_self_iff_true, if_true, List.singleton_append, List.filter_cons,
          hpfalse, Bool.false_eq_true, if_false]
        have := ih (i0 + 1) db j' s hj'
        rw [hrec] at this
        dsimp only at this
        rw [show (i0 + 1) + j' = i0 + (j' + 1) from by omega] at this
        exact this
      | normal gw createOk updateOk =>
        dsimp only
        rcases hst : SMSService.sendSMSToStudent i0 a.id a.phone msg none gw
            createOk updateOk db with ⟨res, db1, evs⟩
        try rw [hst]
        rcases hrec : SMSService.sendBulkSMSGo msg orc total true rest (i0 + 1) db1
          with ⟨se, fa, es, db2, tr⟩
        dsimp only
        have hpfalse : ((SMSService.BulkEv.progressEv i0 (i0 + 1) total
            (a.first_name ++ " " ++ a.last_name)).tag == i0 + (j' + 1)) = false := by
          simp only [SMSService.BulkEv.tag, beq_eq_false_iff_ne, ne_eq]
          omega
        have hevs0 : evs.filter (fun e => e.tag == i0 + (j' + 1)) = [] := by
          rw [List.filter_eq_nil_iff]
          intro e he
          have hm : e ∈ (SMSService.sendSMSToStudent i0 a.id a.phone msg none gw
              createOk updateOk db).2.2 := by rw [hst]; exact he
          have := (sendSMSToStudent_events i0 a.id a.phone msg none gw createOk
            updateOk db e hm).1
          simp only [beq_iff_eq]
          omega
        have hpa0 : (((if rest.isEmpty = true then [] else
              [SMSService.BulkEv.pause i0 1000]) :
              List SMSService.BulkEv).filter
            (fun e => e.tag == i0 + (j' + 1))) = [] := by
          by_cases hre : rest.isEmpty = true
          · rw [if_pos hre]; rfl
          · rw [if_neg hre]
            rw [List.filter_eq_nil_iff]
            intro e he
            simp only [List.mem_singleton] at he
            subst he
            simp only [SMSService.BulkEv.tag, beq_iff_eq]
            omega
        simp only [eq_self_iff_true, if_true, List.singleton_append, List.filter_cons,
          hpfalse, Bool.false_eq_true, if_false, List.filter_append, hevs0, hpa0,
          List.nil_append]
        have := ih (i0 + 1) db1 j' s hj'
        rw [hrec] at this
        dsimp only at this
        rw [show (i0 + 1) + j' = i0 + (j' + 1) from by omega] at this
        exact this

/-- C9 (amended): when a progress callback is supplied, `onProgress` is
invoked exactly once per recipient, with `current` equal to the
recipient's 1-based position and `total` equal to the input length — but
BEFORE that recipient is processed, not after: among the events belonging
to recipient `j`, the progress invocation is the first, preceding any
gateway call or Delivery Record write for that recipient. -/
theorem progress_callback_once_per_recipient :
    ∀ (students : List SMSService.Student) (msg : String)
      (orc : Nat → SMSService.StepOracle) (db : SMSService.DB) (j : Nat)
      (s : SMSService.Student),
      students[j]? = some s →
      (((SMSService.sendBulkSMS students msg orc true db).2.2.filter
          fun e => e.tag == j).head?
        = some (.progressEv j (j + 1) students.length
            (s.first_name ++ " " ++ s.last_name)) ∧
       ((SMSService.sendBulkSMS students msg orc true db).2.2.filter
          fun e => e.tag == j).countP SMSService.BulkEv.isProgress = 1) := by
  intro students msg orc db j s hj
  have h := sendBulkSMSGo_progress_block msg orc students.length students 0 db j s hj
  rw [Nat.zero_add] at h
  exact h

/-- Witness for C9: on a singleton batch the progress callback fires once,
first among the recipient's events, with `current = 1` and `total = 1`. -/
theorem progress_callback_once_per_recipient_witness :
    ((SMSService.sendBulkSMS [⟨"stu-1", "Ada", "Obi", "08031234567"⟩] "hello"
        (fun _ => .normal (.ok (some "SID") none) true true) true ⟨[], 1, 0⟩).2.2.filter
          fun e => e.tag == 0).head?
      = some (.progressEv 0 1 1 "Ada Obi") ∧
    ((SMSService.sendBulkSMS [⟨"stu-1", "Ada", "Obi", "08031234567"⟩] "hello"
        (fun _ => .normal (.ok (some "SID") none) true true) true ⟨[], 1, 0⟩).2.2.filter
          fun e => e.tag == 0).countP SMSService.BulkEv.isProgress = 1 :=
  progress_callback_once_per_recipient [⟨"stu-1", "Ada", "Obi", "08031234567"⟩] "hello"
    (fun _ => .normal (.ok (some "SID") none) true true) ⟨[], 1, 0⟩ 0
    ⟨"stu-1", "Ada", "Obi", "08031234567"⟩ rfl

/-- C9 counterexample: for a singleton batch with a progress callback, the
very first emitted event is the progress invocation with `current = 1`,
and the recipient's record create, gateway call and record update all come
after it: the callback fires before the recipient is processed (at that
moment zero recipients have been processed), not after, refuting the
claimed ordering. -/
theorem progress_callback_before_processing_cex :
    (SMSService.sendBulkSMS [⟨"stu-1", "Ada", "Obi", "08031234567"⟩] "hello"
        (fun _ => .normal (.ok (some "SID") none) true true) true ⟨[], 1, 0⟩).2.2
      = [.progressEv 0 1 1 "Ada Obi",
         .recCreate 0 "stu-1" "2348031234567",
         .gatewaySend 0 "2348031234567",
         .recUpdate 0 1] := by
  decide

/-- The validation predicate forces exactly 13 characters with the 4th one
among 7, 8, 9. -/
theorem nigeriaCheck_spec (l : JStr) (h : nigeriaCheck l = true) :
    l.length = 13 ∧ (l[3]? = some '7' ∨ l[3]? = some '8' ∨ l[3]? = some '9') := by
  unfold nigeriaCheck at h
  simp only [Bool.and_eq_true, Bool.or_eq_true, beq_iff_eq] at h
  tauto

/-- A non-null result of `formatPhoneCore` passed the validation and is one
of the three prefix-rule outcomes. -/
theorem formatPhoneCore_some (digits l : JStr) (h : formatPhoneCore digits = some l) :
    nigeriaCheck l = true ∧
    (l = ['2', '3', '4'] ++ digits.drop 1 ∨ l = ['2', '3', '4'] ++ digits ∨ l = digits) := by
  unfold formatPhoneCore at h
  dsimp only at h
  by_cases h0 : startsWithL digits ['0'] = true
  · rw [if_pos h0] at h
    by_cases hn : nigeriaCheck (['2', '3', '4'] ++ digits.drop 1) = true
    · rw [if_pos hn] at h
      injection h with h
      subst h
      exact ⟨hn, Or.inl rfl⟩
    · rw [if_neg hn] at h
      simp at h
  · rw [if_neg h0] at h
    by_cases h2 : (!startsWithL digits ['2', '3', '4'] && digits.length == 10) = true
    · rw [if_pos h2] at h
      by_cases hn : nigeriaCheck (['2', '3', '4'] ++ digits) = true
      · rw [if_pos hn] at h
        injection h with h
        subst h
        exact ⟨hn, Or.inr (Or.inl rfl)⟩
      · rw [if_neg hn] at h
        simp at h
    · rw [if_neg h2] at h
      by_cases hn : nigeriaCheck digits = true
      · rw [if_pos hn] at h
        injection h with h
        subst h
        exact ⟨hn, Or.inr (Or.inr rfl)⟩
      · rw [if_neg hn] at h
        simp at h

/-- `formatPhoneCore` preserves all-digit inputs. -/
theorem formatPhoneCore_digits (digits l : JStr) (hd : digits.all Char.isDigit = true)
    (h : formatPhoneCore digits = some l) : l.all Char.isDigit = true := by
  obtain ⟨-, hc⟩ := formatPhoneCore_some digits l h
  have hdrop : (digits.drop 1).all Char.isDigit = true := by
    rw [List.all_eq_true] at hd ⊢
    intro x hx
    exact hd x (List.drop_subset 1 digits hx)
  rcases hc with rfl | rfl | rfl
  · rw [List.all_append, hdrop]
    decide
  · rw [List.all_append, hd]
    decide
  · exact hd

/-- C10: every non-null result of the backend `formatPhone` is exactly 13
digit characters whose digit at 0-indexed position 3 is 7, 8 or 9 — but
the result need not start with `234`: a 13-digit cleaned input that starts
with neither `0` nor `234` (and, having 13 digits, is not 10 long) is
returned unchanged once it passes the length-and-prefix check, as
`"9998765432111"` shows. -/
theorem formatPhone_shape_no_234_guarantee :
    (∀ (ph : String) (r : String), formatPhone ph = some r →
      r.toList.length = 13 ∧ r.toList.all Char.isDigit = true ∧
      (r.toList[3]? = some '7' ∨ r.toList[3]? = some '8' ∨ r.toList[3]? = some '9')) ∧
    (∀ digits : JStr, startsWithL digits ['0'] = false →
      startsWithL digits ['2', '3', '4'] = false →
      nigeriaCheck digits = true → formatPhoneCore digits = some digits) ∧
    (formatPhone "9998765432111" = some "9998765432111" ∧
      startsWithL "9998765432111".toList ['2', '3', '4'] = false) := by
  refine ⟨?_, ?_, by decide, by decide⟩
  · intro ph r h
    unfold formatPhone at h
    by_cases hemp : ph.isEmpty = true
    · rw [if_pos hemp] at h
      simp at h
    · rw [if_neg hemp] at h
      rcases Option.map_eq_some'.mp h with ⟨l, hcore, hr⟩
      subst hr
      have hall : (ph.toList.filter Char.isDigit).all Char.isDigit = true := by
        rw [List.all_eq_true]
        intro x hx
        exact (List.mem_filter.mp hx).2
      have hd := formatPhoneCore_digits _ _ hall hcore
      have hn := (formatPhoneCore_some _ _ hcore).1
      have hs := nigeriaCheck_spec _ hn
      exact ⟨hs.1, hd, hs.2⟩
  · intro digits h0 h2 hn
    have hlen := (nigeriaCheck_spec digits hn).1
    simp [formatPhoneCore, h0, h2, hlen, hn]

/-- Witness for C10: `formatPhone "08031234567" = some "2348031234567"`
instantiates the shape property, and the 13-digit `"9998765432111"` (not
starting with 0 or 234) is returned unchanged by the core. -/
theorem formatPhone_shape_no_234_guarantee_witness :
    ("2348031234567".toList.length = 13 ∧
      "2348031234567".toList.all Char.isDigit = true ∧
      ("2348031234567".toList[3]? = some '7' ∨ "2348031234567".toList[3]? = some '8' ∨
        "2348031234567".toList[3]? = some '9')) ∧
    formatPhoneCore "9998765432111".toList = some "9998765432111".toList :=
  ⟨formatPhone_shape_no_234_guarantee.1 "08031234567" "2348031234567" (by decide),
   formatPhone_shape_no_234_guarantee.2.1 "9998765432111".toList (by decide) (by decide)
     (by decide)⟩

/-- Witness for C8: with a valid phone, a gateway failure is reported as
the send outcome even though both persistence writes fail. -/
theorem persistence_failure_does_not_change_outcome_witness :
    (SMSService.sendSMSToStudent 0 "stu-1" "08031234567" "hello" none
        (.netError "socket hang up") false false ⟨[], 1, 0⟩).1.success
      = (SMSService.sendSMS (.netError "socket hang up")).success ∧
    (SMSService.sendSMSToStudent 0 "stu-1" "08031234567" "hello" none
        (.netError "socket hang up") false false ⟨[], 1, 0⟩).1.error
      = (SMSService.sendSMS (.netError "socket hang up")).error :=
  persistence_failure_does_not_change_outcome.1 0 "stu-1" "08031234567" "hello"
    (.netError "socket hang up") false false ⟨[], 1, 0⟩ "2348031234567" (by decide)
